import Mathlib

/-
  Verification of the gpt-oss hallucination-monitoring core.

  Shallow embedding of the detection-signal aggregation and consistency
  engine: Python floats are modelled as rationals (`ℚ`), Python strings as
  `String`/`List Char`, and Python dicts as association lists looked up by
  key.  Each definition mirrors one function of the repository:

  * `compute_risk_score`, `determine_risk_level`
      — gpt_oss/monitoring/metrics/scoring.py
  * `MonitorConfig`, `MonitorThresholds`, `config_default_weights`
      — gpt_oss/monitoring/config.py
-/

namespace Monitoring

/-- Association-list lookup with decidable key equality; models Python
`key in dict` / `dict[key]` (dict keys are unique, the first hit wins). -/
def lookup_assoc {α β : Type} [DecidableEq α] (k : α) : List (α × β) → Option β
  | [] => none
  | (a, b) :: rest => if a = k then some b else lookup_assoc k rest

abbrev SignalMap := List (String × ℚ)

abbrev WeightMap := List (String × ℚ)

/-- Clamp to [0, 1]; models `max(0.0, min(1.0, risk_score))`
(scoring.py line 57), written with conditionals so that it evaluates by
kernel reduction. -/
def clamp01 (x : ℚ) : ℚ := if x < 0 then 0 else if 1 < x then 1 else x

theorem clamp01_eq (x : ℚ) : clamp01 x = max 0 (min 1 x) := by
  unfold clamp01
  by_cases h0 : x < 0
  · rw [if_pos h0, min_eq_right (le_of_lt (lt_of_lt_of_le h0 (by norm_num))),
      max_eq_left (le_of_lt h0)]
  · by_cases h1 : 1 < x
    · rw [if_neg h0, if_pos h1, min_eq_left (le_of_lt h1),
        max_eq_right (by norm_num : (0:ℚ) ≤ 1)]
    · rw [if_neg h0, if_neg h1, min_eq_right (not_lt.mp h1),
        max_eq_right (not_lt.mp h0)]

/-- Thresholds for risk level classification (config.py,
`MonitorThresholds`, defaults high=0.7, medium=0.4). -/
structure MonitorThresholds where
  high : ℚ := 7/10
  medium : ℚ := 4/10
deriving DecidableEq

/-- The default `weights` dict of `MonitorConfig` (config.py lines 31-37).
Its keys are "nli", "self_consistency", "retrieval_support",
"numeric_sanity", "jailbreak_heuristics". -/
def config_default_weights : WeightMap :=
  [("nli", 35/100),
   ("self_consistency", 25/100),
   ("retrieval_support", 20/100),
   ("numeric_sanity", 15/100),
   ("jailbreak_heuristics", 5/100)]

/-- The weight-normalization step of `compute_risk_score`
(scoring.py lines 33-38): if the total weight is positive every weight is
divided by the total, otherwise the weights are used as given. -/
def normalized_weights (weights : WeightMap) : WeightMap :=
  if 0 < (weights.map Prod.snd).sum then
    weights.map (fun kv => (kv.1, kv.2 / (weights.map Prod.snd).sum))
  else
    weights

/-- The loop body of `compute_risk_score` (scoring.py lines 45-54):
a signal found in the weight map adds `weight * score` when named
"jailbreak_heuristics" and `weight * (1 - score)` otherwise; a signal
absent from the weight map leaves the accumulator unchanged. -/
def risk_step (nw : WeightMap) (acc : ℚ) (kv : String × ℚ) : ℚ :=
  match lookup_assoc kv.1 nw with
  | some weight =>
    if kv.1 = "jailbreak_heuristics" then
      acc + weight * kv.2
    else
      acc + weight * (1 - kv.2)
  | none => acc

/-- `compute_risk_score` (scoring.py lines 11-61). -/
def compute_risk_score (signals : SignalMap) (weights : WeightMap) : ℚ :=
  clamp01 (signals.foldl (risk_step (normalized_weights weights)) 0)

/-- `determine_risk_level` (scoring.py lines 64-88). -/
def determine_risk_level (risk_score : ℚ) (thresholds : MonitorThresholds) : String :=
  if thresholds.high ≤ risk_score then "high"
  else if thresholds.medium ≤ risk_score then "medium"
  else "low"

/-- Specification-side description of one signal's contribution to the
risk score: zero when its name is absent from the weight map, otherwise
the (re)normalized weight times the raw score for "jailbreak_heuristics"
and times the complement of the raw score for every other name. -/
def signal_contribution (weights : WeightMap) (name : String) (s : ℚ) : ℚ :=
  match lookup_assoc name weights with
  | none => 0
  | some w =>
    (if 0 < (weights.map Prod.snd).sum then w / (weights.map Prod.snd).sum else w)
    * (if name = "jailbreak_heuristics" then s else 1 - s)

theorem lookup_assoc_map_snd {α β γ : Type} [DecidableEq α] (k : α)
    (f : β → γ) : ∀ l : List (α × β),
    lookup_assoc k (l.map (fun kv => (kv.1, f kv.2))) = (lookup_assoc k l).map f
  | [] => rfl
  | (a, b) :: rest => by
      by_cases h : a = k <;> simp [lookup_assoc, h, lookup_assoc_map_snd k f rest]

theorem lookup_assoc_normalized (weights : WeightMap) (k : String) :
    lookup_assoc k (normalized_weights weights) =
      (lookup_assoc k weights).map
        (fun w => if 0 < (weights.map Prod.snd).sum
                  then w / (weights.map Prod.snd).sum else w) := by
  unfold normalized_weights
  by_cases h : 0 < (weights.map Prod.snd).sum
  · rw [if_pos h]
    rw [lookup_assoc_map_snd k (fun w => w / (weights.map Prod.snd).sum) weights]
    cases lookup_assoc k weights <;> simp [h]
  · rw [if_neg h]
    cases lookup_assoc k weights <;> simp [h]

theorem risk_step_eq (weights : WeightMap) (acc : ℚ) (kv : String × ℚ) :
    risk_step (normalized_weights weights) acc kv
      = acc + signal_contribution weights kv.1 kv.2 := by
  unfold risk_step signal_contribution
  rw [lookup_assoc_normalized]
  cases h : lookup_assoc kv.1 weights with
  | none => simp
  | some w =>
      by_cases hjb : kv.1 = "jailbreak_heuristics" <;>
        by_cases ht : 0 < (weights.map Prod.snd).sum <;>
          simp [hjb, ht]

theorem foldl_risk_step (weights : WeightMap) :
    ∀ (signals : SignalMap) (a : ℚ),
    signals.foldl (risk_step (normalized_weights weights)) a
      = a + (signals.map (fun kv => signal_contribution weights kv.1 kv.2)).sum
  | [], a => by simp
  | kv :: rest, a => by
      rw [List.foldl_cons, risk_step_eq weights a kv,
        foldl_risk_step weights rest (a + signal_contribution weights kv.1 kv.2)]
      simp [add_assoc]

/-- C2.  For every signals map and weights map, `compute_risk_score` is the
clamp to [0,1] of the sum, over the signal entries, of the per-signal
contribution: the (re)normalized weight times the raw score for the one
signal named "jailbreak_heuristics", the normalized weight times
(1 - raw score) for every other signal whose name is in the weights map,
and nothing for a signal name absent from the weights map.  In particular,
for signals {jailbreak_heuristics: 1.0, nli_faithfulness: 1.0} with equal
weights on exactly those two names the aggregate score is exactly 0.5. -/
theorem c2_compute_risk_score_polarity :
    (∀ (signals : SignalMap) (weights : WeightMap),
      compute_risk_score signals weights
        = max 0 (min 1
            ((signals.map (fun kv => signal_contribution weights kv.1 kv.2)).sum)))
    ∧ compute_risk_score
        [("jailbreak_heuristics", 1), ("nli_faithfulness", 1)]
        [("jailbreak_heuristics", 1/2), ("nli_faithfulness", 1/2)] = 1/2 := by
  constructor
  · intro signals weights
    unfold compute_risk_score
    rw [foldl_risk_step weights signals 0, clamp01_eq]
    norm_num
  · unfold compute_risk_score
    rw [foldl_risk_step]
    norm_num [signal_contribution, lookup_assoc, clamp01,
      (show ("nli_faithfulness" : String) ≠ "jailbreak_heuristics" by decide)]

/-- C4.  Under the default configuration weights (whose keys are "nli",
"self_consistency", "retrieval_support", "numeric_sanity",
"jailbreak_heuristics"), the risk score computed by
`HallucinationMonitor.evaluate` (which calls
`compute_risk_score(signals, self.config.weights)`, halluci_monitor.py
line 160) is independent of the "nli_faithfulness" signal entry: two
signal maps that differ only in the value of that entry yield identical
risk scores, because the key "nli_faithfulness" is absent from the
default weights map. -/
theorem c4_risk_score_ignores_nli_faithfulness :
    ∀ (pre post : SignalMap) (v₁ v₂ : ℚ),
      compute_risk_score (pre ++ ("nli_faithfulness", v₁) :: post) config_default_weights
        = compute_risk_score (pre ++ ("nli_faithfulness", v₂) :: post) config_default_weights := by
  intro pre post v₁ v₂
  unfold compute_risk_score
  rw [foldl_risk_step, foldl_risk_step]
  have habs : ∀ v : ℚ,
      signal_contribution config_default_weights "nli_faithfulness" v = 0 := fun _ => rfl
  simp [habs]

theorem sum_map_div (c : ℚ) :
    ∀ l : List ℚ, (l.map (fun x => x / c)).sum = l.sum / c
  | [] => by simp
  | x :: rest => by simp [sum_map_div c rest, add_div]

theorem lookup_assoc_all_zero :
    ∀ (weights : WeightMap), (∀ kv ∈ weights, kv.2 = 0) → ∀ k : String,
      lookup_assoc k weights = none ∨ lookup_assoc k weights = some 0
  | [], _, _ => Or.inl rfl
  | kv :: rest, hz, k => by
      by_cases hk : kv.1 = k
      · exact Or.inr (by simp [lookup_assoc, hk, hz kv (List.mem_cons_self kv rest)])
      · simpa [lookup_assoc, hk] using
          lookup_assoc_all_zero rest (fun p hp => hz p (List.mem_cons_of_mem kv hp)) k

/-- C5.  The weights are renormalized to sum to 1 before combining
whenever their total is positive; when the weights map is empty or
all-zero the raw weights are used unchanged, every signal contributes
nothing, the resulting score is 0, and no division by zero occurs. -/
theorem c5_weight_renormalization :
    (∀ weights : WeightMap, 0 < (weights.map Prod.snd).sum →
      ((normalized_weights weights).map Prod.snd).sum = 1)
    ∧ (∀ weights : WeightMap, ¬ 0 < (weights.map Prod.snd).sum →
      normalized_weights weights = weights)
    ∧ (∀ (signals : SignalMap) (weights : WeightMap),
      (weights = [] ∨ ∀ kv ∈ weights, kv.2 = 0) →
      compute_risk_score signals weights = 0) := by
  refine ⟨?_, ?_, ?_⟩
  · intro weights h
    unfold normalized_weights
    rw [if_pos h]
    have hmm : ((weights.map (fun kv => (kv.1, kv.2 / (weights.map Prod.snd).sum))).map Prod.snd)
        = (weights.map Prod.snd).map (fun x => x / (weights.map Prod.snd).sum) := by
      simp [List.map_map]
    rw [hmm, sum_map_div]
    exact div_self (ne_of_gt h)
  · intro weights h
    unfold normalized_weights
    rw [if_neg h]
  · intro signals weights h
    have hz : ∀ kv ∈ weights, kv.2 = 0 := by
      rcases h with h | h
      · intro kv hmem; rw [h] at hmem; cases hmem
      · exact h
    unfold compute_risk_score
    rw [foldl_risk_step weights signals 0]
    have hcontrib : ∀ kv : String × ℚ,
        signal_contribution weights kv.1 kv.2 = 0 := by
      intro kv
      unfold signal_contribution
      rcases lookup_assoc_all_zero weights hz kv.1 with hnone | hsome
      · simp [hnone]
      · simp [hsome]
    have hsum : (signals.map (fun kv => signal_contribution weights kv.1 kv.2)).sum = 0 := by
      rw [List.sum_eq_zero]
      intro x hx
      rcases List.mem_map.mp hx with ⟨kv, _, hkv⟩
      rw [← hkv]; exact hcontrib kv
    simp [hsum, clamp01]

/-- Witness for C5: a concrete positive-total weight map whose
normalization sums to 1, and a concrete all-zero weight map yielding
risk score 0. -/
theorem c5_weight_renormalization_witness :
    ((normalized_weights [("a", 2), ("b", 2)]).map Prod.snd).sum = 1
    ∧ compute_risk_score [("numeric_sanity", 1)] [("numeric_sanity", 0)] = 0 :=
  ⟨c5_weight_renormalization.1 [("a", 2), ("b", 2)] (by norm_num),
   c5_weight_renormalization.2.2 [("numeric_sanity", 1)] [("numeric_sanity", 0)]
     (Or.inr (by intro kv hkv; simp at hkv; rw [hkv]))⟩

/-- C6.  `determine_risk_level` returns "high" whenever the score is at
least the high threshold, otherwise "medium" whenever it is at least the
medium threshold, otherwise "low"; a score exactly at the high threshold
classifies as "high", not "medium". -/
theorem c6_determine_risk_level_boundaries :
    ∀ (th : MonitorThresholds) (s : ℚ),
      (th.high ≤ s → determine_risk_level s th = "high")
      ∧ (s < th.high → th.medium ≤ s → determine_risk_level s th = "medium")
      ∧ (s < th.high → s < th.medium → determine_risk_level s th = "low")
      ∧ determine_risk_level th.high th = "high" := by
  intro th s
  refine ⟨?_, ?_, ?_, ?_⟩
  · intro h; simp [determine_risk_level, h]
  · intro h1 h2; simp [determine_risk_level, not_le.mpr h1, h2]
  · intro h1 h2
    simp [determine_risk_level, not_le.mpr h1, not_le.mpr h2]
  · simp [determine_risk_level]

/-- Witness for C6 at the default thresholds high=0.7, medium=0.4:
a score of exactly 0.7 is "high", 0.5 is "medium", 0.1 is "low". -/
theorem c6_determine_risk_level_boundaries_witness :
    determine_risk_level (7/10) {} = "high"
    ∧ determine_risk_level (1/2) {} = "medium"
    ∧ determine_risk_level (1/10) {} = "low" :=
  ⟨(c6_determine_risk_level_boundaries {} (7/10)).1 (by norm_num),
   (c6_determine_risk_level_boundaries {} (1/2)).2.1 (by norm_num) (by norm_num),
   (c6_determine_risk_level_boundaries {} (1/10)).2.2.1 (by norm_num) (by norm_num)⟩

end Monitoring

/-
  NumericSanityDetector — gpt_oss/monitoring/detectors/numeric_sanity.py.

  The extraction regex `(\d+(?:\.\d+)?)\s*([a-zA-Z%°]+)?` is embedded as a
  left-to-right scanner: at each digit a maximal run of digits, an optional
  fractional part (a dot followed by at least one digit), a run of
  whitespace and an optional run of unit characters are consumed; the
  matched span includes the whitespace even when no unit follows, exactly
  as the regex groups do.  Decimal literals in the conversion table are
  modelled by their exact rational values.
-/

namespace Monitoring

namespace NumericSanityDetector

/-- Python `\s` whitespace class (space, tab, newline, return, vertical
tab, form feed). -/
def is_space_char (c : Char) : Bool :=
  c = ' ' || c = '\t' || c = '\n' || c = '\r' || c = '\x0B' || c = '\x0C'

/-- The unit-token character class `[a-zA-Z%°]` of the extraction regex. -/
def is_unit_char (c : Char) : Bool :=
  c.isAlpha || c = '%' || c = '°'

/-- Python `str.lower` restricted to one character (ASCII case folding,
which covers every unit token the detector compares). -/
def lower_char (c : Char) : Char :=
  if 'A' ≤ c ∧ c ≤ 'Z' then Char.ofNat (c.toNat + 32) else c

/-- Python `str.lower` on a unit symbol. -/
def str_lower (s : String) : String := String.mk (s.data.map lower_char)

/-- One extracted number: value, optional unit symbol, character offsets
and matched text (the dict built in `_extract_numbers_and_units`,
numeric_sanity.py lines 60-66; the source calls the final offset `end`). -/
structure NumToken where
  value : ℚ
  unit : Option String
  start : Nat
  stop : Nat
  text : List Char
deriving DecidableEq

def digits_to_nat (ds : List Char) : Nat :=
  ds.foldl (fun a c => 10 * a + (c.toNat - 48)) 0

/-- Value of a matched literal: integer digits plus optional fractional
digits (Python `float(match.group(1))`, modelled exactly). -/
def parse_number (ds fr : List Char) : ℚ :=
  (digits_to_nat ds : ℚ) + (digits_to_nat fr : ℚ) / (10 : ℚ) ^ fr.length

/-- Fractional part `(?:\.\d+)?`: consumed only when a dot is followed by
at least one digit; returns the fraction digits and the unconsumed rest. -/
def frac_part (l : List Char) : List Char × List Char :=
  match l with
  | c :: r =>
    if c = '.' then
      if r.takeWhile Char.isDigit = [] then ([], c :: r)
      else (r.takeWhile Char.isDigit, r.dropWhile Char.isDigit)
    else ([], c :: r)
  | [] => ([], [])

/-- Result of matching the extraction regex at a position whose first
character is a digit. -/
structure NumberMatch where
  value : ℚ
  unit_chars : Option (List Char)
  len : Nat
  rest : List Char

/-- Match `(\d+(?:\.\d+)?)\s*([a-zA-Z%°]+)?` at the head of `l`
(the head is assumed to be a digit).  When no unit characters follow the
whitespace, the unit group is `None` but the whitespace stays inside the
match, exactly as with the regex. -/
def match_number (l : List Char) : NumberMatch :=
  let ds := l.takeWhile Char.isDigit
  let fp := frac_part (l.dropWhile Char.isDigit)
  let ws := fp.2.takeWhile is_space_char
  let r3 := fp.2.dropWhile is_space_char
  let us := r3.takeWhile is_unit_char
  let frac_len := if fp.1 = [] then 0 else fp.1.length + 1
  if us = [] then
    { value := parse_number ds fp.1, unit_chars := none,
      len := ds.length + frac_len + ws.length, rest := r3 }
  else
    { value := parse_number ds fp.1, unit_chars := some us,
      len := ds.length + frac_len + ws.length + us.length,
      rest := r3.dropWhile is_unit_char }

theorem length_dropWhile_le {α : Type} (p : α → Bool) :
    ∀ l : List α, (l.dropWhile p).length ≤ l.length
  | [] => Nat.le_refl 0
  | a :: l => by
      rw [List.dropWhile_cons]
      by_cases h : p a = true
      · rw [if_pos h]
        exact Nat.le_trans (length_dropWhile_le p l) (Nat.le_succ _)
      · rw [if_neg h]

theorem frac_part_rest_le (l : List Char) : (frac_part l).2.length ≤ l.length := by
  cases l with
  | nil => exact Nat.le_refl 0
  | cons c r =>
      by_cases hc : c = '.'
      · subst hc
        by_cases h : r.takeWhile Char.isDigit = []
        · simp [frac_part, h]
        · have heq : frac_part ('.' :: r)
              = (r.takeWhile Char.isDigit, r.dropWhile Char.isDigit) := by
            simp [frac_part, h]
          rw [heq]
          exact Nat.le_trans (length_dropWhile_le _ r) (Nat.le_succ _)
      · simp [frac_part, hc]

theorem match_number_rest_le (l : List Char) :
    (match_number l).rest.length ≤ (l.dropWhile Char.isDigit).length := by
  unfold match_number
  by_cases h : (((frac_part (l.dropWhile Char.isDigit)).2.dropWhile
      is_space_char).takeWhile is_unit_char) = []
  · simp only [h, if_pos rfl]
    exact Nat.le_trans (length_dropWhile_le _ _) (frac_part_rest_le _)
  · simp only [if_neg h]
    exact Nat.le_trans (length_dropWhile_le _ _)
      (Nat.le_trans (length_dropWhile_le _ _) (frac_part_rest_le _))

/-- The scanning loop of `re.finditer` over the extraction pattern:
at a digit, match a full number (plus optional unit) and continue after
it; at any other character, advance one position.  The first argument is
structural fuel; `l.length` always suffices (see
`extract_go_fuel_irrelevant`). -/
def extract_go : Nat → List Char → Nat → List NumToken
  | 0, _, _ => []
  | _, [], _ => []
  | fuel + 1, c :: rest, pos =>
    if c.isDigit then
      { value := (match_number (c :: rest)).value,
        unit := (match_number (c :: rest)).unit_chars.map (fun cs => String.mk cs),
        start := pos,
        stop := pos + (match_number (c :: rest)).len,
        text := (c :: rest).take (match_number (c :: rest)).len }
      :: extract_go fuel (match_number (c :: rest)).rest (pos + (match_number (c :: rest)).len)
    else
      extract_go fuel rest (pos + 1)

theorem match_number_rest_lt (c : Char) (rest : List Char) (h : c.isDigit = true) :
    (match_number (c :: rest)).rest.length < (c :: rest).length := by
  have h1 := match_number_rest_le (c :: rest)
  rw [List.dropWhile_cons, if_pos h] at h1
  exact Nat.lt_of_le_of_lt (Nat.le_trans h1 (length_dropWhile_le _ rest))
    (Nat.lt_succ_self rest.length)

/-- Any fuel at least the length of the remaining text yields the same
extraction, so `extract_go text.length text 0` computes the scan exactly. -/
theorem extract_go_fuel_irrelevant :
    ∀ (fuel₁ : Nat) (l : List Char) (fuel₂ pos : Nat),
      l.length ≤ fuel₁ → l.length ≤ fuel₂ →
      extract_go fuel₁ l pos = extract_go fuel₂ l pos
  | 0, l, fuel₂, pos, h1, _ => by
      have : l = [] := List.eq_nil_of_length_eq_zero (Nat.le_zero.mp h1)
      subst this
      cases fuel₂ <;> rfl
  | fuel + 1, [], fuel₂, pos, _, _ => by cases fuel₂ <;> rfl
  | fuel + 1, c :: rest, fuel₂, pos, h1, h2 => by
      cases fuel₂ with
      | zero => exact absurd h2 (by simp)
      | succ f₂ =>
          simp only [extract_go]
          by_cases hd : c.isDigit
          · rw [if_pos hd, if_pos hd]
            have hlt := match_number_rest_lt c rest hd
            have hr1 : (match_number (c :: rest)).rest.length ≤ fuel :=
              Nat.le_of_lt_succ (Nat.lt_of_lt_of_le hlt h1)
            have hr2 : (match_number (c :: rest)).rest.length ≤ f₂ :=
              Nat.le_of_lt_succ (Nat.lt_of_lt_of_le hlt h2)
            rw [extract_go_fuel_irrelevant fuel (match_number (c :: rest)).rest f₂ _ hr1 hr2]
          · rw [if_neg hd, if_neg hd]
            have hr1 : rest.length ≤ fuel := Nat.le_of_succ_le_succ h1
            have hr2 : rest.length ≤ f₂ := Nat.le_of_succ_le_succ h2
            rw [extract_go_fuel_irrelevant fuel rest f₂ _ hr1 hr2]

/-- `_extract_numbers_and_units` (numeric_sanity.py lines 50-68). -/
def extract_numbers_and_units (text : List Char) : List NumToken :=
  extract_go text.length text 0

/-- An entry of the `unit_conversions` table: a linear factor or (for
temperatures) an affine function — the Python dict stores either a float
or a lambda. -/
inductive ConvFactor where
  | factor (c : ℚ)
  | affine (f : ℚ → ℚ)

/-- Applying a conversion: `factor(value)` when callable, otherwise
`value * factor` (numeric_sanity.py lines 81-84). -/
def ConvFactor.apply : ConvFactor → ℚ → ℚ
  | .factor c, v => v * c
  | .affine f, v => f v

/-- The `unit_conversions` dict (numeric_sanity.py lines 24-48).  Note the
temperature keys are the upper-case strings "C" and "F", all other keys
are lower-case. -/
def unit_conversions : List ((String × String) × ConvFactor) :=
  [(("km", "mi"), .factor (621371/1000000)),
   (("mi", "km"), .factor (160934/100000)),
   (("m", "ft"), .factor (328084/100000)),
   (("ft", "m"), .factor (3048/10000)),
   (("cm", "in"), .factor (393701/1000000)),
   (("in", "cm"), .factor (254/100)),
   (("kg", "lb"), .factor (220462/100000)),
   (("lb", "kg"), .factor (453592/1000000)),
   (("g", "oz"), .factor (35274/1000000)),
   (("oz", "g"), .factor (283495/10000)),
   (("C", "F"), .affine (fun c => c * 9/5 + 32)),
   (("F", "C"), .affine (fun f => (f - 32) * 5/9)),
   (("L", "gal"), .factor (264172/1000000)),
   (("gal", "L"), .factor (378541/100000)),
   (("ml", "fl_oz"), .factor (33814/1000000)),
   (("fl_oz", "ml"), .factor (295735/10000))]

/-- `_check_unit_conversion` (numeric_sanity.py lines 70-97): lower-case
both units, look the pair up in the conversion table (in either order),
convert and compare within relative tolerance; with a missing unit or no
known conversion the pair counts as consistent. -/
def check_unit_conversion (tolerance : ℚ) (value1 : ℚ) (unit1 : Option String)
    (value2 : ℚ) (unit2 : Option String) : Bool :=
  match unit1, unit2 with
  | some u1, some u2 =>
    if u1 = "" ∨ u2 = "" then true
    else
      match lookup_assoc (str_lower u1, str_lower u2) unit_conversions with
      | some f =>
        decide (|f.apply value1 - value2| ≤ tolerance * max |f.apply value1| |value2|)
      | none =>
        match lookup_assoc (str_lower u2, str_lower u1) unit_conversions with
        | some f =>
          decide (|f.apply value2 - value1| ≤ tolerance * max |f.apply value2| |value1|)
        | none => true
  | _, _ => true

/-- A finding produced by the detector: the dicts appended in
`_check_arithmetic_consistency` and `_check_unit_consistency`. -/
inductive SanityIssue where
  | arithmetic_sum (n1 n2 n3 : NumToken) (expected found : ℚ) (consistent : Bool)
  | arithmetic_product (n1 n2 n3 : NumToken) (expected found : ℚ) (consistent : Bool)
  | unit_inconsistency (n1 n2 : NumToken) (group : String) (consistent : Bool)
deriving DecidableEq

/-- `issue.get('consistent', True)` — every issue dict carries the key. -/
def SanityIssue.consistent : SanityIssue → Bool
  | .arithmetic_sum _ _ _ _ _ c => c
  | .arithmetic_product _ _ _ _ _ c => c
  | .unit_inconsistency _ _ _ c => c

/-- `_check_arithmetic_consistency` (numeric_sanity.py lines 99-139).
For each pair `(i, j)` with `i < j` whose units are compatible, the sum
check fires only when `|v1 + v2 - (v1 + v2)| > tolerance` and then scans
for a third number equal to the sum within tolerance, appending a
`consistent=True` finding; the product check is identical with `*`. -/
def check_arithmetic_consistency (tolerance : ℚ) (numbers : List NumToken) :
    List SanityIssue :=
  numbers.enum.flatMap (fun p1 =>
    (numbers.enum.drop (p1.1 + 1)).flatMap (fun p2 =>
      if (match p1.2.unit, p2.2.unit with
          | some u1, some u2 => decide (u1 ≠ u2)
          | _, _ => false) then []
      else
        (if |p1.2.value + p2.2.value - (p1.2.value + p2.2.value)| > tolerance then
          numbers.enum.flatMap (fun p3 =>
            if p3.1 ≠ p1.1 ∧ p3.1 ≠ p2.1
               ∧ |p3.2.value - (p1.2.value + p2.2.value)| ≤ tolerance then
              [SanityIssue.arithmetic_sum p1.2 p2.2 p3.2
                (p1.2.value + p2.2.value) p3.2.value true]
            else [])
        else [])
        ++
        (if |p1.2.value * p2.2.value - (p1.2.value * p2.2.value)| > tolerance then
          numbers.enum.flatMap (fun p3 =>
            if p3.1 ≠ p1.1 ∧ p3.1 ≠ p2.1
               ∧ |p3.2.value - (p1.2.value * p2.2.value)| ≤ tolerance then
              [SanityIssue.arithmetic_product p1.2 p2.2 p3.2
                (p1.2.value * p2.2.value) p3.2.value true]
            else [])
        else [])))

/-- The three unit comparability groups of `_check_unit_consistency`
(numeric_sanity.py lines 146-154); note the temperature set holds the
upper-case strings while membership is tested on lower-cased units. -/
def unit_groups : List (String × List String) :=
  [("distance", ["km", "mi", "m", "ft", "cm", "in"]),
   ("weight", ["kg", "lb", "g", "oz"]),
   ("temperature", ["C", "F", "°C", "°F"])]

/-- `_check_unit_consistency` (numeric_sanity.py lines 141-177). -/
def check_unit_consistency (tolerance : ℚ) (numbers : List NumToken) :
    List SanityIssue :=
  unit_groups.flatMap (fun g =>
    (if 2 ≤ (numbers.filter (fun n =>
        match n.unit with
        | some u => g.2.contains (str_lower u)
        | none => false)).length then
      (numbers.filter (fun n =>
        match n.unit with
        | some u => g.2.contains (str_lower u)
        | none => false)).enum.flatMap (fun p1 =>
        ((numbers.filter (fun n =>
          match n.unit with
          | some u => g.2.contains (str_lower u)
          | none => false)).enum.drop (p1.1 + 1)).flatMap (fun p2 =>
          if p1.2.unit ≠ p2.2.unit then
            if check_unit_conversion tolerance p1.2.value p1.2.unit
                p2.2.value p2.2.unit then []
            else [SanityIssue.unit_inconsistency p1.2 p2.2 g.1 false]
          else []))
    else []))

/-- `detect` (numeric_sanity.py lines 179-211): extract, run both checks,
return `1 - inconsistent/total` (with total defaulting to 1 on an empty
issue list) together with the issues. -/
def detect (tolerance : ℚ) (text : List Char) : ℚ × List SanityIssue :=
  if extract_numbers_and_units text = [] then (1, [])
  else
    (1 - (((check_arithmetic_consistency tolerance (extract_numbers_and_units text)
            ++ check_unit_consistency tolerance (extract_numbers_and_units text)).filter
              (fun i => !(i.consistent))).length : ℚ)
        / (if (check_arithmetic_consistency tolerance (extract_numbers_and_units text)
              ++ check_unit_consistency tolerance (extract_numbers_and_units text)) = []
           then 1
           else ((check_arithmetic_consistency tolerance (extract_numbers_and_units text)
              ++ check_unit_consistency tolerance (extract_numbers_and_units text)).length : ℚ)),
     check_arithmetic_consistency tolerance (extract_numbers_and_units text)
       ++ check_unit_consistency tolerance (extract_numbers_and_units text))

end NumericSanityDetector

/-- The completion "15 + 27 = 45" of the C1 scenario. -/
def c1_completion : List Char :=
  ['1', '5', ' ', '+', ' ', '2', '7', ' ', '=', ' ', '4', '5']

/-- C1 counterexample.  On the completion "15 + 27 = 45" (with default
tolerance 0.01) `NumericSanityDetector.detect` returns an empty findings
list — not one inconsistent finding — and a numeric_sanity score that is
not 0.0: the arithmetic sum guard compares `v1 + v2` with itself, so it
can never exceed the tolerance and no arithmetic finding is ever emitted. -/
theorem c1_arithmetic_scenario_counterexample :
    (NumericSanityDetector.detect (1/100) c1_completion).2.length = 0
    ∧ (NumericSanityDetector.detect (1/100) c1_completion).1 ≠ 0 := by
  constructor
  · with_unfolding_all rfl
  · exact of_decide_eq_true (by with_unfolding_all rfl)

/-- C1 amended.  For the completion "15 + 27 = 45" the detector extracts
the numeric tokens 15, 27 and 45 (no units), but the arithmetic sum check
produces no finding (its guard `|v1 + v2 - (v1 + v2)| > tolerance` is
vacuously false), so `detect` returns score 1.0 with an empty issue
list. -/
theorem c1_arithmetic_scenario_amended :
    ((NumericSanityDetector.extract_numbers_and_units c1_completion).map
        (fun n => (n.value, n.unit)) = [(15, none), (27, none), (45, none)])
    ∧ NumericSanityDetector.detect (1/100) c1_completion = (1, []) := by
  constructor
  · with_unfolding_all rfl
  · with_unfolding_all rfl


/-- The completion "100 C and 50 F" exercising the temperature group. -/
def c3_completion : List Char :=
  ['1', '0', '0', ' ', 'C', ' ', 'a', 'n', 'd', ' ', '5', '0', ' ', 'F']

/-- C3 code behavior at the failing input.  The detector lower-cases units
before consulting the conversion table and the comparability groups, but
the temperature table keys and the temperature group set hold the
upper-case strings "C"/"F"; hence `_check_unit_conversion` accepts any
C/F pair (here 100 C vs 100 F, and 0 C vs 0 F, which the repository's own
test `test_temperature_conversions` asserts must be rejected), and a text
pairing 100 C with 50 F produces no unit-inconsistency finding and score
1.0. -/
theorem c3_temperature_units_code_behavior :
    NumericSanityDetector.check_unit_conversion (1/100) 100 (some "C") 100 (some "F") = true
    ∧ NumericSanityDetector.check_unit_conversion (1/100) 0 (some "C") 0 (some "F") = true
    ∧ ((NumericSanityDetector.extract_numbers_and_units c3_completion).map
        (fun n => (n.value, n.unit)) = [(100, some "C"), (50, some "F")])
    ∧ NumericSanityDetector.detect (1/100) c3_completion = (1, []) := by
  refine ⟨?_, ?_, ?_, ?_⟩ <;> with_unfolding_all rfl

/-- C8.  `_check_unit_conversion` on a km/mi pair returns true exactly when
`a * 0.621371` equals `b` within relative tolerance τ (so a ratio outside
the tolerance yields false); and for every unit pair the result is
monotone in the tolerance: tightening the tolerance never turns a false
into a true. -/
theorem c8_check_unit_conversion_tolerance :
    (∀ (τ a b : ℚ),
      NumericSanityDetector.check_unit_conversion τ a (some "km") b (some "mi") = true
        ↔ |a * (621371/1000000) - b| ≤ τ * max |a * (621371/1000000)| |b|)
    ∧ (∀ (τ₁ τ₂ v₁ v₂ : ℚ) (u₁ u₂ : Option String), τ₁ ≤ τ₂ →
      NumericSanityDetector.check_unit_conversion τ₁ v₁ u₁ v₂ u₂ = true →
      NumericSanityDetector.check_unit_conversion τ₂ v₁ u₁ v₂ u₂ = true) := by
  constructor
  · intro τ a b
    have h : NumericSanityDetector.check_unit_conversion τ a (some "km") b (some "mi")
        = decide (|a * (621371/1000000) - b| ≤ τ * max |a * (621371/1000000)| |b|) := by
      with_unfolding_all rfl
    rw [h, decide_eq_true_iff]
  · intro τ₁ τ₂ v₁ v₂ u₁ u₂ hτ h
    have hmax : ∀ x y : ℚ, 0 ≤ max |x| |y| :=
      fun x y => le_trans (abs_nonneg x) (le_max_left _ _)
    cases u₁ with
    | none => exact h
    | some u₁ =>
        cases u₂ with
        | none => exact h
        | some u₂ =>
            simp only [NumericSanityDetector.check_unit_conversion] at h ⊢
            by_cases he : u₁ = "" ∨ u₂ = ""
            · rw [if_pos he]
            · rw [if_neg he] at h ⊢
              cases hl : lookup_assoc
                  (NumericSanityDetector.str_lower u₁, NumericSanityDetector.str_lower u₂)
                  NumericSanityDetector.unit_conversions with
              | some f =>
                  rw [hl] at h
                  have h' := of_decide_eq_true h
                  exact decide_eq_true (le_trans h'
                    (mul_le_mul_of_nonneg_right hτ (hmax _ _)))
              | none =>
                  rw [hl] at h
                  cases hl2 : lookup_assoc
                      (NumericSanityDetector.str_lower u₂, NumericSanityDetector.str_lower u₁)
                      NumericSanityDetector.unit_conversions with
                  | some f =>
                      rw [hl2] at h
                      have h' := of_decide_eq_true h
                      exact decide_eq_true (le_trans h'
                        (mul_le_mul_of_nonneg_right hτ (hmax _ _)))
                  | none => exact rfl

/-- Witness for C8: 100 km vs 62 mi is within tolerance 0.01 (the true
value is 62.1371), and by monotonicity it stays consistent at the looser
tolerance 0.02. -/
theorem c8_check_unit_conversion_tolerance_witness :
    NumericSanityDetector.check_unit_conversion (1/50) 100 (some "km") 62 (some "mi") = true :=
  c8_check_unit_conversion_tolerance.2 (1/100) (1/50) 100 62 (some "km") (some "mi")
    (by norm_num) (by with_unfolding_all rfl)


/-
  SpanAligner — gpt_oss/monitoring/highlight/span_align.py — and the NLI
  reason codes of gpt_oss/monitoring/detectors/nli_faithfulness.py.
-/

namespace SpanAligner

/-- One located sentence (the dict built in `find_sentence_spans`,
span_align.py lines 105-119; the source calls the final offset `end`). -/
structure SentenceSpan where
  text : List Char
  start : Nat
  stop : Nat
deriving DecidableEq

/-- Python `text.find(sub, pos)`: the least index `i ≥ pos` at which `sub`
occurs in `text`, as an `Option` (Python returns -1 on failure). -/
def str_find (text sub : List Char) (pos : Nat) : Option Nat :=
  ((List.range (text.length + 1)).filter
    (fun i => decide (pos ≤ i) && decide ((text.drop i).take sub.length = sub))).head?

/-- The loop of `find_sentence_spans` (span_align.py lines 94-122): search
each sentence from the current cursor; on success emit its exact span and
move the cursor to its end; on failure emit the fallback span
`[cursor, cursor + len)` and advance the cursor by the sentence length. -/
def find_sentence_spans_go (text : List Char) :
    List (List Char) → Nat → List SentenceSpan
  | [], _ => []
  | s :: rest, current_pos =>
    match str_find text s current_pos with
    | some i =>
      { text := s, start := i, stop := i + s.length }
        :: find_sentence_spans_go text rest (i + s.length)
    | none =>
      { text := s, start := current_pos, stop := current_pos + s.length }
        :: find_sentence_spans_go text rest (current_pos + s.length)

/-- `find_sentence_spans` (span_align.py lines 94-122). -/
def find_sentence_spans (text : List Char) (sentences : List (List Char)) :
    List SentenceSpan :=
  find_sentence_spans_go text sentences 0

/-- Specification predicate for C7: starting from cursor `pos`, each span
ends at `start + length`, starts no earlier than the cursor, and either
records a successful exact search (so the text occurs at `start`) or a
failed search (so `start` is exactly the cursor); the next sentence is
processed from this span's end. -/
def spans_located (text : List Char) (pos : Nat) : List SentenceSpan → Prop
  | [] => True
  | sp :: rest =>
    sp.stop = sp.start + sp.text.length
    ∧ pos ≤ sp.start
    ∧ ((str_find text sp.text pos = some sp.start
        ∧ (text.drop sp.start).take sp.text.length = sp.text)
       ∨ (str_find text sp.text pos = none ∧ sp.start = pos))
    ∧ spans_located text sp.stop rest

theorem head?_filter {α : Type} (p : α → Bool) :
    ∀ (l : List α) (a : α), (l.filter p).head? = some a → p a = true
  | [], a, h => by simp [List.filter] at h
  | x :: l, a, h => by
      by_cases hx : p x = true
      · rw [List.filter_cons_of_pos hx] at h
        simp only [List.head?_cons, Option.some.injEq] at h
        rw [← h]; exact hx
      · rw [List.filter_cons_of_neg hx] at h
        exact head?_filter p l a h

theorem str_find_some (text sub : List Char) (pos i : Nat)
    (h : str_find text sub pos = some i) :
    pos ≤ i ∧ (text.drop i).take sub.length = sub := by
  have hp := head?_filter _ _ _ h
  simpa using hp

theorem find_sentence_spans_go_spec (text : List Char) :
    ∀ (sentences : List (List Char)) (pos : Nat),
      ((find_sentence_spans_go text sentences pos).map SentenceSpan.text = sentences)
      ∧ spans_located text pos (find_sentence_spans_go text sentences pos)
  | [], pos => ⟨rfl, trivial⟩
  | s :: rest, pos => by
      cases hf : str_find text s pos with
      | some i =>
          have hs := str_find_some text s pos i hf
          have ih := find_sentence_spans_go_spec text rest (i + s.length)
          simp only [find_sentence_spans_go, hf]
          exact ⟨by simp [ih.1], ⟨rfl, hs.1, Or.inl ⟨hf, hs.2⟩, ih.2⟩⟩
      | none =>
          have ih := find_sentence_spans_go_spec text rest (pos + s.length)
          simp only [find_sentence_spans_go, hf]
          exact ⟨by simp [ih.1], ⟨rfl, Nat.le_refl pos, Or.inr ⟨hf, rfl⟩, ih.2⟩⟩

end SpanAligner

/-- C7.  `find_sentence_spans` emits one span per sentence in order;
starting from cursor 0, every span either comes from a successful exact
search — in which case the completion restricted to `[start, stop)`
equals the sentence text and `start` is at or after the cursor — or from
a failed search, in which case `start` is exactly the cursor and
`stop = cursor + length` with no content verification; in both cases the
next sentence is searched from this span's end, so the cursor never
decreases. -/
theorem c7_find_sentence_spans_spec :
    ∀ (text : List Char) (sentences : List (List Char)),
      ((SpanAligner.find_sentence_spans text sentences).map
          SpanAligner.SentenceSpan.text = sentences)
      ∧ SpanAligner.spans_located text 0
          (SpanAligner.find_sentence_spans text sentences) :=
  fun text sentences => SpanAligner.find_sentence_spans_go_spec text sentences 0

namespace SpanAligner

/-- Python `sub in s` substring test. -/
def contains_sub (s sub : List Char) : Bool :=
  (List.range (s.length + 1)).any (fun i => decide ((s.drop i).take sub.length = sub))

/-- The reason-code classification of `highlight_spans`
(span_align.py lines 135-151): the first matching substring test decides
color and severity. -/
def highlight_classify (reason : List Char) : String × String :=
  if contains_sub reason "NLI: entailment".data then ("green", "low")
  else if contains_sub reason "NLI: neutral".data then ("yellow", "medium")
  else if contains_sub reason "NLI: contradiction".data
          || contains_sub reason "RS: unsupported".data then ("red", "high")
  else if contains_sub reason "JB: high_risk".data then ("purple", "critical")
  else ("blue", "info")

end SpanAligner

/-- The reason code attached to a sentence analysis by
`NLIFaithfulnessDetector.detect` (nli_faithfulness.py lines 137-144):
"NLI: entailment" when the entailment score reaches the threshold,
"NLI: neutral/contradiction" otherwise.  `HallucinationMonitor.evaluate`
turns only the non-faithful analyses into spans
(halluci_monitor.py lines 114-121). -/
def nli_sentence_reason (entailment_score entailment_threshold : ℚ) : List Char :=
  if entailment_threshold ≤ entailment_score then "NLI: entailment".data
  else "NLI: neutral/contradiction".data

/-- C10.  Every span that originates from the NLI faithfulness detector is
classified yellow with severity medium, never red/high: the detector's
only non-faithful reason code is "NLI: neutral/contradiction", the
classifier's "NLI: neutral" substring test matches that string, and the
first matching test wins, so the contradiction test is never reached
(indeed the literal "NLI: contradiction" does not even occur in the
reason, since the string interposes "neutral/"). -/
theorem c10_nli_span_classification :
    ∀ (e t : ℚ), e < t →
      nli_sentence_reason e t = "NLI: neutral/contradiction".data
      ∧ SpanAligner.highlight_classify (nli_sentence_reason e t) = ("yellow", "medium")
      ∧ SpanAligner.contains_sub (nli_sentence_reason e t)
          "NLI: neutral".data = true := by
  intro e t h
  have hr : nli_sentence_reason e t = "NLI: neutral/contradiction".data := by
    unfold nli_sentence_reason
    rw [if_neg (not_le.mpr h)]
  refine ⟨hr, ?_, ?_⟩
  · rw [hr]; with_unfolding_all rfl
  · rw [hr]; with_unfolding_all rfl

/-- Witness for C10 at entailment score 0 against threshold 0.5. -/
theorem c10_nli_span_classification_witness :
    SpanAligner.highlight_classify (nli_sentence_reason 0 (1/2)) = ("yellow", "medium") :=
  (c10_nli_span_classification 0 (1/2) (by norm_num)).2.1

/-
  HallucinationMonitor — gpt_oss/monitoring/halluci_monitor.py — attribute
  frame of `evaluate`.
-/

/-- `MonitorConfig` (config.py lines 16-52). -/
structure MonitorConfig where
  k_samples : Nat := 5
  temperature : ℚ := 7/10
  max_new_tokens : Nat := 512
  enable_retrieval_support : Bool := true
  enable_jailbreak_heuristics : Bool := true
  thresholds : MonitorThresholds := {}
  weights : WeightMap := config_default_weights
  html_report : Bool := true
  report_dir : String := "runs"
  nli_model_name : String := "microsoft/DialoGPT-medium"
  nli_entailment_threshold : ℚ := 1/2
  retrieval_similarity_threshold : ℚ := 3/4
  chunk_size : Nat := 512
  numeric_tolerance : ℚ := 1/100
deriving DecidableEq

/-- The observable state of a `SpanAligner` object
(span_align.py lines 12-20): the completion text and the tokenizer it was
constructed with (the offset maps are derived from these two). -/
structure SpanAlignerState (Tok : Type) where
  text : List Char
  tokenizer : Option Tok
deriving DecidableEq

/-- The attributes of a `HallucinationMonitor` instance
(halluci_monitor.py lines 41-56): configuration, optional model and
tokenizer, the detector map, the cached span aligner slot (initialized to
`None`), and the HTML generator.  Model, tokenizer, detector and
generator objects are opaque type parameters. -/
structure HallucinationMonitorState (Model Tok Detectors HtmlGen : Type) where
  config : MonitorConfig
  model : Option Model
  tokenizer : Option Tok
  detectors : Detectors
  span_aligner : Option (SpanAlignerState Tok)
  html_generator : HtmlGen

/-- The effect of one `HallucinationMonitor.evaluate` call on the monitor
object's attributes.  The method's single attribute assignment is
`self.span_aligner = SpanAligner(completion, self.tokenizer)`
(halluci_monitor.py line 80); every other statement of `evaluate` (and of
every detector's `detect`) only reads attributes or builds local state. -/
def evaluate_attribute_effect {Model Tok D H : Type}
    (m : HallucinationMonitorState Model Tok D H) (completion : List Char) :
    HallucinationMonitorState Model Tok D H :=
  { m with span_aligner := some { text := completion, tokenizer := m.tokenizer } }

/-- A freshly constructed monitor: `span_aligner` starts as `None`
(halluci_monitor.py line 55). -/
def c9_initial_monitor : HallucinationMonitorState Unit Unit Unit Unit :=
  { config := {}, model := none, tokenizer := none, detectors := (),
    span_aligner := none, html_generator := () }

/-- C9 counterexample.  `evaluate` does cache a per-call entity on the
engine object: after a call on a fresh monitor the `span_aligner`
attribute differs from its prior value (it changes from `None` to the
aligner of the current call), so not every attribute is unchanged. -/
theorem c9_span_aligner_cached_counterexample :
    (evaluate_attribute_effect c9_initial_monitor
        "Paris is the capital of France.".data).span_aligner
      ≠ c9_initial_monitor.span_aligner := by
  simp [evaluate_attribute_effect, c9_initial_monitor]

/-- C9 amended.  An `evaluate` call leaves the `detectors`, `config`,
`model`, `tokenizer` and `html_generator` attributes unchanged, but
overwrites `span_aligner` with a fresh `SpanAligner` for the current
completion — a mutable per-call slot shared by concurrent calls on the
same engine. -/
theorem c9_evaluate_frame_amended :
    ∀ {Model Tok D H : Type} (m : HallucinationMonitorState Model Tok D H)
      (completion : List Char),
      (evaluate_attribute_effect m completion).config = m.config
      ∧ (evaluate_attribute_effect m completion).model = m.model
      ∧ (evaluate_attribute_effect m completion).tokenizer = m.tokenizer
      ∧ (evaluate_attribute_effect m completion).detectors = m.detectors
      ∧ (evaluate_attribute_effect m completion).html_generator = m.html_generator
      ∧ (evaluate_attribute_effect m completion).span_aligner
          = some { text := completion, tokenizer := m.tokenizer } := by
  intro Model Tok D H m completion
  exact ⟨rfl, rfl, rfl, rfl, rfl, rfl⟩

end Monitoring
